import Mathlib

/-!
Shallow embedding of the dual-backend synchronization engine of
`src/firebase.ts`.  The Realtime Database (`rtdb`) is the FastStore and
Firestore (`db`) is the DurableStore.  Each exported helper of the source
file is translated into a pure Lean function over an explicit store state;
awaited store operations that can throw are modelled by failure oracles in
an `Env`, and the list of store operations actually issued during a call is
returned as a trace, so that failure-isolation properties can be stated.
-/

set_option linter.unusedVariables false

namespace Firebase

/-- Keys are strings: user ids, content keys, Firestore document ids. -/
abbrev Key := String

/-- Leaf values stored inside schema-less records. -/
inductive Val where
  | str : String → Val
  | num : Int → Val
  | flag : Bool → Val
deriving DecidableEq

/-- A schema-less record: a top-level field map, as a JS object. -/
abbrev Fields := String → Option Val

/-- Environment of one call: which backends initialized successfully
(`db` / `rtdb` non-null after the safe-init block, lines 27-41) and
failure oracles saying which awaited store operations throw. -/
structure Env where
  dbReady : Bool
  rtdbReady : Bool
  fastWriteFails : Key → Bool
  durableWriteFails : Key → Bool
  fastReadFails : Key → Bool
  durableReadFails : Key → Bool
  fastBulkWriteFails : Bool
  fastUpdateFails : Key → Bool

/-- Store operations issued (attempted) during a call. -/
inductive Op where
  | fastWrite (k : Key)
  | durableWrite (k : Key)
  | fastRead (k : Key)
  | durableRead (k : Key)
  | fastBulkWrite
  | fastUpdate (k : Key)
deriving DecidableEq

/-- Point update of a keyed store. -/
def setAt {β : Type} (store : Key → Option β) (k : Key) (v : β) : Key → Option β :=
  fun k2 => if k2 = k then some v else store k2

/-- State of the `users/...` RTDB tree and the `users` Firestore collection. -/
structure UserState where
  fast : Key → Option Fields
  durable : Key → Option Fields

/-- `saveUserToLive` (firebase.ts lines 59-71): gate on both backends, then a
single try block performing `set(ref(rtdb, users/id), user)` followed by
`setDoc(doc(db, "users", id), user)`.  A throw anywhere jumps to the
`catch`, which only logs. -/
def saveUserToLive (env : Env) (s : UserState) (userId : Key) (user : Fields) :
    UserState × List Op :=
  if env.dbReady && env.rtdbReady then
    if env.fastWriteFails userId then
      (s, [Op.fastWrite userId])
    else
      let s1 : UserState := { s with fast := setAt s.fast userId user }
      if env.durableWriteFails userId then
        (s1, [Op.fastWrite userId, Op.durableWrite userId])
      else
        ({ s1 with durable := setAt s1.durable userId user },
         [Op.fastWrite userId, Op.durableWrite userId])
  else (s, [])

/-- `getUserData` (lines 93-106): gate on both backends; try RTDB first and
return it if it exists, else try Firestore; any throw lands in the catch
which returns `null`. -/
def getUserData (env : Env) (s : UserState) (userId : Key) :
    Option Fields × List Op :=
  if env.dbReady && env.rtdbReady then
    if env.fastReadFails userId then
      (none, [Op.fastRead userId])
    else
      match s.fast userId with
      | some v => (some v, [Op.fastRead userId])
      | none =>
        (if env.durableReadFails userId then none else s.durable userId,
         [Op.fastRead userId, Op.durableRead userId])
  else (none, [])

/-- The fixed key under which system settings live in both stores. -/
def settingsKey : Key := "system_settings"

/-- State of `system_settings` in RTDB and `config/system_settings` in Firestore. -/
structure SettingsState where
  fast : Option Fields
  durable : Option Fields

/-- `saveSystemSettings` (lines 121-129): same shape as `saveUserToLive`,
one try block around both writes. -/
def saveSystemSettings (env : Env) (s : SettingsState) (settings : Fields) :
    SettingsState × List Op :=
  if env.dbReady && env.rtdbReady then
    if env.fastWriteFails settingsKey then
      (s, [Op.fastWrite settingsKey])
    else
      let s1 : SettingsState := { s with fast := some settings }
      if env.durableWriteFails settingsKey then
        (s1, [Op.fastWrite settingsKey, Op.durableWrite settingsKey])
      else
        ({ s1 with durable := some settings },
         [Op.fastWrite settingsKey, Op.durableWrite settingsKey])
  else (s, [])

/-- State of the `content_data/...` and `content_links/...` RTDB trees and
the `content_data` Firestore collection.  Payloads are opaque. -/
structure ContentState (α : Type) where
  fastData : Key → Option α
  fastLinks : Key → Option α
  durable : Key → Option α

/-- `saveChapterData` (lines 167-175): one try block,
`set(ref(rtdb, content_data/key))` then `setDoc(doc(db, "content_data", key))`. -/
def saveChapterData {α : Type} (env : Env) (s : ContentState α) (key : Key) (data : α) :
    ContentState α × List Op :=
  if env.dbReady && env.rtdbReady then
    if env.fastWriteFails key then
      (s, [Op.fastWrite key])
    else
      let s1 : ContentState α := { s with fastData := setAt s.fastData key data }
      if env.durableWriteFails key then
        (s1, [Op.fastWrite key, Op.durableWrite key])
      else
        ({ s1 with durable := setAt s1.durable key data },
         [Op.fastWrite key, Op.durableWrite key])
  else (s, [])

/-- `getChapterData` (lines 177-197): try RTDB, fall back to Firestore when
the RTDB snapshot does not exist; any throw lands in the catch returning
`null`. -/
def getChapterData {α : Type} (env : Env) (s : ContentState α) (key : Key) :
    Option α × List Op :=
  if env.dbReady && env.rtdbReady then
    if env.fastReadFails key then
      (none, [Op.fastRead key])
    else
      match s.fastData key with
      | some v => (some v, [Op.fastRead key])
      | none =>
        (if env.durableReadFails key then none else s.durable key,
         [Op.fastRead key, Op.durableRead key])
  else (none, [])

/-- Effect of the RTDB multi-key `update(ref(rtdb, content_links), updates)`
on the `content_links` tree. -/
def bulkApply {α : Type} (updates : List (Key × α)) (store : Key → Option α) :
    Key → Option α :=
  fun k =>
    match updates.lookup k with
    | some v => some v
    | none => store k

/-- The per-key `setDoc` fan-out of `bulkSaveLinks`: every key's write is
dispatched; a key's write lands only if its own oracle does not fail. -/
def applyDurableWrites {α : Type} (env : Env) :
    List (Key × α) → (Key → Option α) → Key → Option α
  | [], store => store
  | (k, v) :: rest, store =>
      applyDurableWrites env rest
        (if env.durableWriteFails k then store else setAt store k v)

/-- `bulkSaveLinks` (lines 148-164): one try block; first the awaited RTDB
bulk `update` on `content_links`, then all per-key `setDoc` calls are
dispatched together and awaited with `Promise.all`.  If the bulk update
throws, the fan-out is never dispatched; once dispatched, every per-key
write proceeds independently (a rejection only short-circuits the joint
await, not the sibling writes). -/
def bulkSaveLinks {α : Type} (env : Env) (s : ContentState α) (updates : List (Key × α)) :
    ContentState α × List Op :=
  if env.dbReady && env.rtdbReady then
    if env.fastBulkWriteFails then
      (s, [Op.fastBulkWrite])
    else
      ({ s with
          fastLinks := bulkApply updates s.fastLinks,
          durable := applyDurableWrites env updates s.durable },
       Op.fastBulkWrite :: updates.map (fun u => Op.durableWrite u.1))
  else (s, [])

/-- Result of running one subscription against a stream of store events:
the callback invocations in order, how many one-shot fallback reads were
issued against the sibling store, and whether a live listener was attached
(when no listener is attached, the returned unsubscriber is `() => {}`,
so `cancel()` is a no-op). -/
structure SubRun (α : Type) where
  calls : List α
  fallbackReads : Nat
  attached : Bool
deriving DecidableEq

/-- The `onSnapshot` handler of `subscribeToUsers`, applied to each Firestore
collection snapshot in turn (lines 77-90): a non-empty snapshot is delivered
as-is; an empty one triggers a one-shot RTDB read of `users` and delivers
the list read there.  No state distinguishes the first snapshot from later
ones. -/
def usersProcess {α : Type} (fastList : List α) : List (List α) → List (List α) × Nat
  | [] => ([], 0)
  | snap :: rest =>
      let tail := usersProcess fastList rest
      if snap.length > 0 then (snap :: tail.1, tail.2)
      else (fastList :: tail.1, tail.2 + 1)

/-- `subscribeToUsers` (lines 73-91) run against a stream of Firestore
snapshots, with `fastList` the user list a one-shot RTDB read would yield. -/
def subscribeToUsers {α : Type} (env : Env) (fastList : List α)
    (snaps : List (List α)) : SubRun (List α) :=
  if env.dbReady && env.rtdbReady then
    { calls := (usersProcess fastList snaps).1,
      fallbackReads := (usersProcess fastList snaps).2,
      attached := true }
  else { calls := [], fallbackReads := 0, attached := false }

/-- The `onSnapshot` handler of `subscribeToSettings` applied to each
Firestore document snapshot (lines 134-144): an existing document is
delivered; a missing one triggers a one-shot RTDB read whose value is
delivered only when non-null. -/
def settingsProcess {α : Type} (fastVal : Option α) : List (Option α) → List α × Nat
  | [] => ([], 0)
  | snap :: rest =>
      let tail := settingsProcess fastVal rest
      match snap with
      | some v => (v :: tail.1, tail.2)
      | none =>
        match fastVal with
        | some w => (w :: tail.1, tail.2 + 1)
        | none => (tail.1, tail.2 + 1)

/-- `subscribeToSettings` (lines 131-145) run against a stream of Firestore
document snapshots, with `fastVal` the value a one-shot RTDB read yields. -/
def subscribeToSettings {α : Type} (env : Env) (fastVal : Option α)
    (snaps : List (Option α)) : SubRun α :=
  if env.dbReady && env.rtdbReady then
    { calls := (settingsProcess fastVal snaps).1,
      fallbackReads := (settingsProcess fastVal snaps).2,
      attached := true }
  else { calls := [], fallbackReads := 0, attached := false }

/-- The `onValue` handler of `subscribeToChapterData` applied to each RTDB
snapshot (lines 203-213): an existing snapshot is delivered; a missing one
triggers a one-shot Firestore `getDoc` delivered only when it exists. -/
def chapterProcess {α : Type} (durableVal : Option α) : List (Option α) → List α × Nat
  | [] => ([], 0)
  | snap :: rest =>
      let tail := chapterProcess durableVal rest
      match snap with
      | some v => (v :: tail.1, tail.2)
      | none =>
        match durableVal with
        | some w => (w :: tail.1, tail.2 + 1)
        | none => (tail.1, tail.2 + 1)

/-- `subscribeToChapterData` (lines 200-214) run against a stream of RTDB
snapshots, with `durableVal` the value a one-shot Firestore read yields. -/
def subscribeToChapterData {α : Type} (env : Env) (durableVal : Option α)
    (snaps : List (Option α)) : SubRun α :=
  if env.dbReady && env.rtdbReady then
    { calls := (chapterProcess durableVal snaps).1,
      fallbackReads := (chapterProcess durableVal snaps).2,
      attached := true }
  else { calls := [], fallbackReads := 0, attached := false }

/-- Document id generated by `saveTestResult` (line 220):
the template string `${attempt.testId}_${Date.now()}`. -/
def testResultDocId (testId : String) (nowMs : Nat) : String :=
  testId ++ "_" ++ Nat.repr nowMs

/-- State of the `users/{userId}/test_results` Firestore subcollections. -/
structure TestResultState (α : Type) where
  results : Key → String → Option α

/-- `saveTestResult` (lines 217-223): gated on `db` only; writes the attempt
under the generated document id, overwriting any document with that id. -/
def saveTestResult {α : Type} (env : Env) (s : TestResultState α) (userId : Key)
    (testId : String) (nowMs : Nat) (attempt : α) : TestResultState α :=
  if env.dbReady then
    if env.durableWriteFails (testResultDocId testId nowMs) then s
    else
      { results := fun u d =>
          if u = userId && d = testResultDocId testId nowMs then some attempt
          else s.results u d }
  else s

/-- RTDB `update(ref, obj)` shallow merge of the fields of `upd` into `r`. -/
def mergeFields (r : Fields) (upd : List (String × Val)) : Fields :=
  fun f =>
    match upd.lookup f with
    | some v => some v
    | none => r f

/-- RTDB `update(ref(rtdb, users/k), obj)`: merges into the existing record,
creating the record when absent. -/
def rtdbMerge (store : Key → Option Fields) (k : Key) (upd : List (String × Val)) :
    Key → Option Fields :=
  fun k2 =>
    if k2 = k then
      some (mergeFields
        (match store k with
         | some r => r
         | none => fun _ => none) upd)
    else store k2

/-- `updateUserStatus` (lines 225-232): gated on `rtdb` only; merges
`lastActiveTime: new Date().toISOString()` into the RTDB user record.
`nowIso` is the wall-clock serialization; the `time` argument is accepted
and never used, exactly as in the source. -/
def updateUserStatus (env : Env) (nowIso : String) (s : UserState) (userId : Key)
    (time : Nat) : UserState × List Op :=
  if env.rtdbReady then
    if env.fastUpdateFails userId then (s, [Op.fastUpdate userId])
    else
      ({ s with fast := rtdbMerge s.fast userId [("lastActiveTime", Val.str nowIso)] },
       [Op.fastUpdate userId])
  else (s, [])

/-- Decimal digit characters of a natural number, most significant first:
the structural form of the character list `Nat.toDigits 10` builds. -/
def decChars (n : Nat) : List Char :=
  if h : n < 10 then [Nat.digitChar n]
  else decChars (n / 10) ++ [Nat.digitChar (n % 10)]
termination_by n
decreasing_by exact Nat.div_lt_self (by omega) (by omega)

/-- An environment where both backends initialized and no operation fails. -/
def readyEnv : Env :=
  { dbReady := true, rtdbReady := true,
    fastWriteFails := fun _ => false, durableWriteFails := fun _ => false,
    fastReadFails := fun _ => false, durableReadFails := fun _ => false,
    fastBulkWriteFails := false, fastUpdateFails := fun _ => false }

/-- Both backends ready, every RTDB `set` throws. -/
def fastWriteFailEnv : Env := { readyEnv with fastWriteFails := fun _ => true }

/-- Both backends ready, every RTDB `get` throws. -/
def fastReadFailEnv : Env := { readyEnv with fastReadFails := fun _ => true }

/-- Firestore initialized, RTDB initialization failed (`rtdb` null). -/
def noRtdbEnv : Env := { readyEnv with rtdbReady := false }

/-- Firestore initialization failed (`db` null), RTDB ready. -/
def noDbEnv : Env := { readyEnv with dbReady := false }

/-- Both backends ready, the RTDB bulk `update` of `content_links` throws. -/
def bulkFailEnv : Env := { readyEnv with fastBulkWriteFails := true }

/-- Empty user stores. -/
def emptyUserState : UserState := { fast := fun _ => none, durable := fun _ => none }

/-- Empty settings stores. -/
def emptySettingsState : SettingsState := { fast := none, durable := none }

/-- A sample user record. -/
def cexUser : Fields := fun f => if f = "name" then some (Val.str "A") else none

/-- User stores where only the DurableStore holds `cexUser` under `"u1"`. -/
def durableOnlyUserState : UserState :=
  { fast := fun _ => none,
    durable := fun k => if k = "u1" then some cexUser else none }

/-- Empty content stores over `Nat` payloads. -/
def emptyContentState : ContentState Nat :=
  { fastData := fun _ => none, fastLinks := fun _ => none, durable := fun _ => none }

/-- Empty test-result store over `Nat` payloads. -/
def emptyTestResultState : TestResultState Nat := { results := fun _ _ => none }

lemma digitChar_injOn : ∀ a < 10, ∀ b < 10, Nat.digitChar a = Nat.digitChar b → a = b := by
  decide

lemma map_digitChar_inj : ∀ l1 l2 : List Nat, (∀ x ∈ l1, x < 10) → (∀ x ∈ l2, x < 10) →
    l1.map Nat.digitChar = l2.map Nat.digitChar → l1 = l2 := by
  intro l1
  induction l1 with
  | nil =>
    intro l2 _ _ h
    cases l2 with
    | nil => rfl
    | cons b t => simp at h
  | cons a t ih =>
    intro l2 h1 h2 h
    cases l2 with
    | nil => simp at h
    | cons b t2 =>
      simp only [List.map_cons, List.cons.injEq] at h
      have ha : a < 10 := h1 a (by simp)
      have hb : b < 10 := h2 b (by simp)
      have hab : a = b := digitChar_injOn a ha b hb h.1
      subst hab
      have ht := ih t2 (fun x hx => h1 x (by simp [hx])) (fun x hx => h2 x (by simp [hx])) h.2
      rw [ht]

lemma decChars_eq_digits (n : Nat) (hn : n ≠ 0) :
    decChars n = ((Nat.digits 10 n).map Nat.digitChar).reverse := by
  induction n using Nat.strong_induction_on with
  | _ n ih =>
    rw [decChars]
    by_cases h : n < 10
    · rw [dif_pos h]
      rw [Nat.digits_def' (by norm_num : (1:ℕ) < 10) (Nat.pos_of_ne_zero hn)]
      have h0 : n / 10 = 0 := Nat.div_eq_of_lt h
      rw [h0]
      simp [Nat.mod_eq_of_lt h]
    · rw [dif_neg h]
      have hpos : 0 < n := by omega
      have h10 : n / 10 ≠ 0 := by omega
      rw [ih (n / 10) (Nat.div_lt_self hpos (by norm_num)) h10]
      rw [Nat.digits_def' (by norm_num : (1:ℕ) < 10) hpos]
      simp

lemma decChars_zero : decChars 0 = [Nat.digitChar 0] := by
  rw [decChars]
  norm_num

lemma decChars_injective : Function.Injective decChars := by
  have key : ∀ m : Nat, m ≠ 0 → decChars 0 = decChars m → False := by
    intro m hm h
    rw [decChars_zero, decChars_eq_digits m hm] at h
    have h2 : (Nat.digits 10 m).map Nat.digitChar = [Nat.digitChar 0] := by
      rw [← List.reverse_reverse ((Nat.digits 10 m).map Nat.digitChar), ← h]
      simp
    have h3 : Nat.digits 10 m = [0] :=
      map_digitChar_inj _ _ (fun x hx => Nat.digits_lt_base (by norm_num) hx)
        (by intro x hx; simp at hx; omega) h2
    have h4 : m = Nat.ofDigits 10 (Nat.digits 10 m) := (Nat.ofDigits_digits 10 m).symm
    rw [h3] at h4
    simp [Nat.ofDigits] at h4
    exact hm h4
  intro n m h
  by_cases hn : n = 0 <;> by_cases hm : m = 0
  · rw [hn, hm]
  · exact absurd (key m hm (hn ▸ h)) (by simp)
  · exact absurd (key n hn (hm ▸ h.symm)) (by simp)
  · rw [decChars_eq_digits n hn, decChars_eq_digits m hm] at h
    have h2 := List.reverse_injective h
    have h3 := map_digitChar_inj _ _ (fun x hx => Nat.digits_lt_base (by norm_num) hx)
      (fun x hx => Nat.digits_lt_base (by norm_num) hx) h2
    exact Nat.digits.injective 10 h3

lemma toDigitsCore_eq_decChars :
    ∀ (f n : Nat) (ds : List Char), n < f →
      Nat.toDigitsCore 10 f n ds = decChars n ++ ds := by
  intro f
  induction f with
  | zero => intro n ds h; omega
  | succ f ih =>
    intro n ds h
    by_cases h0 : n / 10 = 0
    · have hlt : n < 10 := by omega
      simp only [Nat.toDigitsCore, h0, if_true]
      rw [decChars, dif_pos hlt, Nat.mod_eq_of_lt hlt]
      rfl
    · have hge : ¬ n < 10 := by omega
      have hn : 0 < n := by omega
      have hdf : n / 10 < f := by
        have := Nat.div_lt_self hn (by norm_num : (1:ℕ) < 10)
        omega
      simp only [Nat.toDigitsCore, h0, if_false]
      rw [ih (n / 10) (Nat.digitChar (n % 10) :: ds) hdf]
      conv_rhs => rw [decChars]
      rw [dif_neg hge]
      simp

lemma repr_eq_decChars (n : Nat) : Nat.repr n = (decChars n).asString := by
  show (Nat.toDigits 10 n).asString = _
  rw [Nat.toDigits, toDigitsCore_eq_decChars (n + 1) n [] (Nat.lt_succ_self n)]
  simp

lemma natRepr_injective : Function.Injective Nat.repr := by
  intro n m h
  rw [repr_eq_decChars, repr_eq_decChars] at h
  apply decChars_injective
  have hd := congrArg String.data h
  simpa [List.asString] using hd

lemma stringAppend_left_cancel {a b c : String} (h : a ++ b = a ++ c) : b = c := by
  have hd := congrArg String.data h
  simp only [String.data_append] at hd
  exact String.ext (List.append_cancel_left hd)

/-- C1 counterexample: both stores ready and the FastStore write throwing,
`saveUserToLive` does not attempt the DurableStore write (the trace holds no
`durableWrite`) and the DurableStore still misses the record afterwards;
likewise for `saveSystemSettings`.  The claimed failure isolation fails. -/
theorem C1_counterexample :
    fastWriteFailEnv.dbReady = true ∧ fastWriteFailEnv.rtdbReady = true ∧
    fastWriteFailEnv.fastWriteFails "u1" = true ∧
    Op.durableWrite "u1" ∉ (saveUserToLive fastWriteFailEnv emptyUserState "u1" cexUser).2 ∧
    (saveUserToLive fastWriteFailEnv emptyUserState "u1" cexUser).1.durable "u1" = none ∧
    Op.durableWrite settingsKey ∉
      (saveSystemSettings fastWriteFailEnv emptySettingsState cexUser).2 := by
  refine ⟨rfl, rfl, rfl, by decide, rfl, by decide⟩

/-- C1 (amended): in `saveUserToLive` and `saveSystemSettings` both writes
share one try block, so the two failures are not isolated symmetrically:
when the DurableStore write fails the FastStore write has already been
attempted and committed (it comes first), but when the FastStore write
fails the thrown error reaches the shared catch and the DurableStore write
is never attempted. -/
theorem C1_dualWriteFailureIsolation (env : Env) (s : UserState) (ss : SettingsState)
    (k : Key) (u : Fields) (cfg : Fields)
    (hdb : env.dbReady = true) (hrt : env.rtdbReady = true) :
    (env.fastWriteFails k = true →
       (saveUserToLive env s k u).1 = s ∧
       Op.durableWrite k ∉ (saveUserToLive env s k u).2) ∧
    (env.fastWriteFails k = false →
       Op.fastWrite k ∈ (saveUserToLive env s k u).2 ∧
       (saveUserToLive env s k u).1.fast k = some u) ∧
    (env.fastWriteFails settingsKey = true →
       (saveSystemSettings env ss cfg).1 = ss ∧
       Op.durableWrite settingsKey ∉ (saveSystemSettings env ss cfg).2) ∧
    (env.fastWriteFails settingsKey = false →
       Op.fastWrite settingsKey ∈ (saveSystemSettings env ss cfg).2 ∧
       (saveSystemSettings env ss cfg).1.fast = some cfg) := by
  refine ⟨fun hf => ?_, fun hf => ?_, fun hf => ?_, fun hf => ?_⟩
  · simp [saveUserToLive, hdb, hrt, hf]
  · by_cases hd : env.durableWriteFails k <;>
      simp [saveUserToLive, hdb, hrt, hf, hd, setAt]
  · simp [saveSystemSettings, hdb, hrt, hf]
  · by_cases hd : env.durableWriteFails settingsKey <;>
      simp [saveSystemSettings, hdb, hrt, hf, hd]

/-- C1 witness: the amended statement instantiated with both stores ready
and every FastStore write throwing. -/
theorem C1_dualWriteFailureIsolation_witness :
    (fastWriteFailEnv.fastWriteFails "u1" = true →
       (saveUserToLive fastWriteFailEnv emptyUserState "u1" cexUser).1 = emptyUserState ∧
       Op.durableWrite "u1" ∉ (saveUserToLive fastWriteFailEnv emptyUserState "u1" cexUser).2) ∧
    (fastWriteFailEnv.fastWriteFails "u1" = false →
       Op.fastWrite "u1" ∈ (saveUserToLive fastWriteFailEnv emptyUserState "u1" cexUser).2 ∧
       (saveUserToLive fastWriteFailEnv emptyUserState "u1" cexUser).1.fast "u1" = some cexUser) ∧
    (fastWriteFailEnv.fastWriteFails settingsKey = true →
       (saveSystemSettings fastWriteFailEnv emptySettingsState cexUser).1 = emptySettingsState ∧
       Op.durableWrite settingsKey ∉
         (saveSystemSettings fastWriteFailEnv emptySettingsState cexUser).2) ∧
    (fastWriteFailEnv.fastWriteFails settingsKey = false →
       Op.fastWrite settingsKey ∈
         (saveSystemSettings fastWriteFailEnv emptySettingsState cexUser).2 ∧
       (saveSystemSettings fastWriteFailEnv emptySettingsState cexUser).1.fast = some cexUser) :=
  C1_dualWriteFailureIsolation fastWriteFailEnv emptyUserState emptySettingsState
    "u1" cexUser cexUser rfl rfl

/-- C2 counterexample: both stores ready, a stream of two empty DurableStore
snapshots makes `subscribeToUsers` perform two FastStore fallback reads in
one subscription lifetime and deliver the FastStore list both times, so the
fallback is not limited to the first snapshot. -/
theorem C2_counterexample :
    readyEnv.dbReady = true ∧ readyEnv.rtdbReady = true ∧
    (subscribeToUsers readyEnv [7] [[], []]).fallbackReads = 2 ∧
    (subscribeToUsers readyEnv [7] [[], []]).calls = [[7], [7]] := by
  refine ⟨rfl, rfl, by decide, by decide⟩

/-- C2 (amended): the snapshot handler keeps no first-snapshot state: over a
subscription's lifetime the one-shot FastStore fallback read fires once per
empty DurableStore snapshot — first or later — and every empty snapshot
delivers the FastStore list in place of the snapshot, while non-empty
snapshots are delivered as-is. -/
theorem C2_fallbackPerEmptySnapshot {α : Type} (env : Env) (fastList : List α)
    (snaps : List (List α)) (hdb : env.dbReady = true) (hrt : env.rtdbReady = true) :
    (subscribeToUsers env fastList snaps).fallbackReads
        = (snaps.filter (fun s => s.isEmpty)).length ∧
    (subscribeToUsers env fastList snaps).calls
        = snaps.map (fun s => if s.length > 0 then s else fastList) := by
  have key : ∀ l : List (List α),
      (usersProcess fastList l).2 = (l.filter (fun s => s.isEmpty)).length ∧
      (usersProcess fastList l).1 = l.map (fun s => if s.length > 0 then s else fastList) := by
    intro l
    induction l with
    | nil => exact ⟨rfl, rfl⟩
    | cons snap rest ih =>
      by_cases hs : snap.length > 0
      · have he : snap.isEmpty = false := by
          cases snap with
          | nil => simp at hs
          | cons a t => rfl
        simp [usersProcess, hs, he, ih.1, ih.2]
      · have he : snap.isEmpty = true := by
          cases snap with
          | nil => rfl
          | cons a t => simp at hs
        simp [usersProcess, hs, he, ih.1, ih.2]
  constructor
  · simp [subscribeToUsers, hdb, hrt, (key snaps).1]
  · simp [subscribeToUsers, hdb, hrt, (key snaps).2]

/-- C2 witness: the amended statement instantiated on a three-snapshot
stream whose first and third snapshots are empty. -/
theorem C2_fallbackPerEmptySnapshot_witness :
    (subscribeToUsers readyEnv [7] [[], [5], []]).fallbackReads
        = ([[], [5], []].filter (fun s => s.isEmpty)).length ∧
    (subscribeToUsers readyEnv [7] [[], [5], []]).calls
        = [[], [5], []].map (fun s => if s.length > 0 then s else [7]) :=
  C2_fallbackPerEmptySnapshot readyEnv [7] [[], [5], []] rfl rfl

/-- C3 counterexample: both stores ready, the FastStore read throws, and the
DurableStore holds the record; `getUserData` returns `none` without ever
attempting the DurableStore read, so an erroring FastStore read is not
treated like "not found". -/
theorem C3_counterexample :
    fastReadFailEnv.dbReady = true ∧ fastReadFailEnv.rtdbReady = true ∧
    fastReadFailEnv.fastReadFails "u1" = true ∧
    durableOnlyUserState.durable "u1" = some cexUser ∧
    (getUserData fastReadFailEnv durableOnlyUserState "u1").1 = none ∧
    Op.durableRead "u1" ∉ (getUserData fastReadFailEnv durableOnlyUserState "u1").2 := by
  refine ⟨rfl, rfl, rfl, by simp [durableOnlyUserState], rfl, by decide⟩

/-- C3 (amended): in `getUserData` and `getChapterData` a FastStore read
error is caught by the surrounding try/catch and the call returns `none`
immediately — the DurableStore read is not attempted.  The DurableStore
fallback runs only when the FastStore read succeeds and reports
non-existence; in that case the result is the DurableStore value when that
read does not itself error. -/
theorem C3_readErrorAbortsFallback {α : Type} (env : Env) (s : UserState)
    (c : ContentState α) (k : Key)
    (hdb : env.dbReady = true) (hrt : env.rtdbReady = true) :
    (env.fastReadFails k = true →
       (getUserData env s k).1 = none ∧
       Op.durableRead k ∉ (getUserData env s k).2 ∧
       (getChapterData env c k).1 = none ∧
       Op.durableRead k ∉ (getChapterData env c k).2) ∧
    (env.fastReadFails k = false → s.fast k = none →
       Op.durableRead k ∈ (getUserData env s k).2 ∧
       (env.durableReadFails k = false → (getUserData env s k).1 = s.durable k)) ∧
    (env.fastReadFails k = false → c.fastData k = none →
       Op.durableRead k ∈ (getChapterData env c k).2 ∧
       (env.durableReadFails k = false → (getChapterData env c k).1 = c.durable k)) := by
  refine ⟨fun hf => ?_, fun hf hn => ⟨?_, fun hd => ?_⟩, fun hf hn => ⟨?_, fun hd => ?_⟩⟩
  · simp [getUserData, getChapterData, hdb, hrt, hf]
  · simp [getUserData, hdb, hrt, hf, hn]
  · simp [getUserData, hdb, hrt, hf, hn, hd]
  · simp [getChapterData, hdb, hrt, hf, hn]
  · simp [getChapterData, hdb, hrt, hf, hn, hd]

/-- C3 witness: the amended statement instantiated with both stores ready,
no failing operation, and empty FastStore, over `Nat` content payloads. -/
theorem C3_readErrorAbortsFallback_witness :
    (readyEnv.fastReadFails "u1" = true →
       (getUserData readyEnv emptyUserState "u1").1 = none ∧
       Op.durableRead "u1" ∉ (getUserData readyEnv emptyUserState "u1").2 ∧
       (getChapterData readyEnv emptyContentState "u1").1 = none ∧
       Op.durableRead "u1" ∉ (getChapterData readyEnv emptyContentState "u1").2) ∧
    (readyEnv.fastReadFails "u1" = false → emptyUserState.fast "u1" = none →
       Op.durableRead "u1" ∈ (getUserData readyEnv emptyUserState "u1").2 ∧
       (readyEnv.durableReadFails "u1" = false →
         (getUserData readyEnv emptyUserState "u1").1 = emptyUserState.durable "u1")) ∧
    (readyEnv.fastReadFails "u1" = false → emptyContentState.fastData "u1" = none →
       Op.durableRead "u1" ∈ (getChapterData readyEnv emptyContentState "u1").2 ∧
       (readyEnv.durableReadFails "u1" = false →
         (getChapterData readyEnv emptyContentState "u1").1 = emptyContentState.durable "u1")) :=
  C3_readErrorAbortsFallback readyEnv emptyUserState emptyContentState "u1" rfl rfl

/-- C4 counterexample: FastStore (rtdb) unready while DurableStore (db) is
ready; `saveUserToLive` issues no store operation at all — in particular no
DurableStore write — and the subsequent `getUserData` returns `none`, not
the saved payload. -/
theorem C4_counterexample :
    noRtdbEnv.rtdbReady = false ∧ noRtdbEnv.dbReady = true ∧
    (saveUserToLive noRtdbEnv emptyUserState "u1" cexUser).2 = [] ∧
    (getUserData noRtdbEnv (saveUserToLive noRtdbEnv emptyUserState "u1" cexUser).1 "u1").1
      = none := by
  exact ⟨rfl, rfl, by decide, rfl⟩

/-- C4 (amended): when the FastStore backend is unready, the shared guard
makes `saveUserToLive` a total no-op: neither store is written, no outcome
beyond the silent return exists, and a subsequent `getUserData` — gated on
the same guard — returns `none` instead of the payload. -/
theorem C4_unreadySaveIsNoop (env : Env) (s : UserState) (k : Key) (u : Fields)
    (hrt : env.rtdbReady = false) :
    saveUserToLive env s k u = (s, []) ∧
    (getUserData env (saveUserToLive env s k u).1 k).1 = none ∧
    (getUserData env (saveUserToLive env s k u).1 k).2 = [] := by
  simp [saveUserToLive, getUserData, hrt]

/-- C4 witness: the amended statement instantiated with Firestore ready and
RTDB unready. -/
theorem C4_unreadySaveIsNoop_witness :
    saveUserToLive noRtdbEnv emptyUserState "u1" cexUser = (emptyUserState, []) ∧
    (getUserData noRtdbEnv (saveUserToLive noRtdbEnv emptyUserState "u1" cexUser).1 "u1").1
      = none ∧
    (getUserData noRtdbEnv (saveUserToLive noRtdbEnv emptyUserState "u1" cexUser).1 "u1").2
      = [] :=
  C4_unreadySaveIsNoop noRtdbEnv emptyUserState "u1" cexUser rfl

/-- If a key does not occur in the batch, the per-key Firestore fan-out of
`bulkSaveLinks` leaves it untouched. -/
lemma applyDurableWrites_notMem {α : Type} (env : Env) (updates : List (Key × α))
    (store : Key → Option α) (k : Key) (hk : k ∉ updates.map Prod.fst) :
    applyDurableWrites env updates store k = store k := by
  induction updates generalizing store with
  | nil => rfl
  | cons kv rest ih =>
    cases kv with
    | mk k2 v2 =>
      simp only [List.map_cons, List.mem_cons] at hk
      push_neg at hk
      simp only [applyDurableWrites]
      rw [ih _ hk.2]
      by_cases hd : env.durableWriteFails k2
      · simp [hd]
      · simp [hd, setAt, hk.1]

/-- If the batch keys are distinct, a key present in the batch whose own
Firestore write does not fail ends up written, whatever happens to the
other keys. -/
lemma applyDurableWrites_ok {α : Type} (env : Env) (updates : List (Key × α))
    (store : Key → Option α) (k : Key) (v : α)
    (hnodup : (updates.map Prod.fst).Nodup) (hmem : (k, v) ∈ updates)
    (hok : env.durableWriteFails k = false) :
    applyDurableWrites env updates store k = some v := by
  induction updates generalizing store with
  | nil => simp at hmem
  | cons kv rest ih =>
    cases kv with
    | mk k2 v2 =>
      simp only [List.map_cons, List.nodup_cons] at hnodup
      rcases List.mem_cons.mp hmem with heq | hrest
      · have h1 : k = k2 := congrArg Prod.fst heq
        have h2 : v = v2 := congrArg Prod.snd heq
        subst h1
        subst h2
        simp only [applyDurableWrites, hok, if_false]
        rw [applyDurableWrites_notMem env rest _ k hnodup.1]
        simp [setAt]
      · simp only [applyDurableWrites]
        exact ih _ hnodup.2 hrest

/-- C5 counterexample: both stores ready but the FastStore bulk write
throws; `bulkSaveLinks` never dispatches the per-key DurableStore write of
`"a"`, whose own write would have succeeded, and the DurableStore stays
empty.  The FastStore bulk failure therefore cancels the DurableStore
writes. -/
theorem C5_counterexample :
    bulkFailEnv.dbReady = true ∧ bulkFailEnv.rtdbReady = true ∧
    bulkFailEnv.fastBulkWriteFails = true ∧
    bulkFailEnv.durableWriteFails "a" = false ∧
    Op.durableWrite "a" ∉ (bulkSaveLinks bulkFailEnv emptyContentState [("a", 1)]).2 ∧
    (bulkSaveLinks bulkFailEnv emptyContentState [("a", 1)]).1.durable "a" = none := by
  refine ⟨rfl, rfl, rfl, rfl, by decide, rfl⟩

/-- C5 (amended): `bulkSaveLinks` awaits the FastStore bulk write inside the
same try block that dispatches the per-key DurableStore writes, so a
FastStore bulk failure aborts the call and no DurableStore write is even
dispatched.  Once the bulk write succeeds, the per-key fan-out is
dispatched for every key, and — for distinct batch keys — one key's
DurableStore failure leaves every other key's outcome unaffected. -/
theorem C5_bulkFailureIsolation {α : Type} (env : Env) (s : ContentState α)
    (updates : List (Key × α))
    (hdb : env.dbReady = true) (hrt : env.rtdbReady = true) :
    (env.fastBulkWriteFails = true →
       (bulkSaveLinks env s updates).1 = s ∧
       ∀ k, Op.durableWrite k ∉ (bulkSaveLinks env s updates).2) ∧
    (env.fastBulkWriteFails = false →
       (∀ kv ∈ updates, Op.durableWrite kv.1 ∈ (bulkSaveLinks env s updates).2) ∧
       (∀ k v, (updates.map Prod.fst).Nodup → (k, v) ∈ updates →
          env.durableWriteFails k = false →
          (bulkSaveLinks env s updates).1.durable k = some v)) := by
  refine ⟨fun hf => ⟨?_, fun k => ?_⟩, fun hf => ⟨fun kv hkv => ?_, fun k v hnd hmem hok => ?_⟩⟩
  · simp [bulkSaveLinks, hdb, hrt, hf]
  · simp [bulkSaveLinks, hdb, hrt, hf]
  · simp only [bulkSaveLinks, hdb, hrt, hf, Bool.and_self, if_true, if_false]
    exact List.mem_cons_of_mem _ (List.mem_map_of_mem (fun u => Op.durableWrite u.1) hkv)
  · simp only [bulkSaveLinks, hdb, hrt, hf, Bool.and_self, if_true, if_false]
    exact applyDurableWrites_ok env updates s.durable k v hnd hmem hok

/-- C5 witness: the amended statement instantiated on a two-key batch with
nothing failing. -/
theorem C5_bulkFailureIsolation_witness :
    (readyEnv.fastBulkWriteFails = true →
       (bulkSaveLinks readyEnv emptyContentState [("a", 1), ("b", 2)]).1 = emptyContentState ∧
       ∀ k, Op.durableWrite k ∉ (bulkSaveLinks readyEnv emptyContentState [("a", 1), ("b", 2)]).2) ∧
    (readyEnv.fastBulkWriteFails = false →
       (∀ kv ∈ [("a", 1), ("b", 2)],
          Op.durableWrite kv.1 ∈ (bulkSaveLinks readyEnv emptyContentState [("a", 1), ("b", 2)]).2) ∧
       (∀ k v, (([("a", 1), ("b", 2)] : List (Key × Nat)).map Prod.fst).Nodup →
          (k, v) ∈ [("a", 1), ("b", 2)] →
          readyEnv.durableWriteFails k = false →
          (bulkSaveLinks readyEnv emptyContentState [("a", 1), ("b", 2)]).1.durable k = some v)) :=
  C5_bulkFailureIsolation readyEnv emptyContentState [("a", 1), ("b", 2)] rfl rfl

/-- C6 (confirmed): with both stores ready and both writes and the FastStore
read succeeding, a save followed by a get returns the saved payload — for
the user pair `saveUserToLive`/`getUserData` and the content pair
`saveChapterData`/`getChapterData` alike. -/
theorem C6_saveThenGetRoundTrip {α : Type} (env : Env) (s : UserState)
    (c : ContentState α) (k : Key) (u : Fields) (d : α)
    (hdb : env.dbReady = true) (hrt : env.rtdbReady = true)
    (hfw : env.fastWriteFails k = false) (hdw : env.durableWriteFails k = false)
    (hfr : env.fastReadFails k = false) :
    (getUserData env (saveUserToLive env s k u).1 k).1 = some u ∧
    (getChapterData env (saveChapterData env c k d).1 k).1 = some d := by
  constructor <;>
    simp [saveUserToLive, saveChapterData, getUserData, getChapterData,
      hdb, hrt, hfw, hdw, hfr, setAt]

/-- C6 witness: the round trip instantiated with nothing failing, a sample
user record and the content payload 42. -/
theorem C6_saveThenGetRoundTrip_witness :
    (getUserData readyEnv (saveUserToLive readyEnv emptyUserState "k1" cexUser).1 "k1").1
      = some cexUser ∧
    (getChapterData readyEnv (saveChapterData readyEnv emptyContentState "k1" 42).1 "k1").1
      = some 42 :=
  C6_saveThenGetRoundTrip readyEnv emptyUserState emptyContentState "k1" cexUser 42
    rfl rfl rfl rfl rfl

/-- C7 counterexample: two `saveTestResult` calls in the same millisecond
with the same test id generate the same document id, and the second stored
record overwrites the first — the keys do collide under rapid succession. -/
theorem C7_counterexample :
    testResultDocId "t1" 5 = testResultDocId "t1" 5 ∧
    (saveTestResult readyEnv
        (saveTestResult readyEnv emptyTestResultState "u1" "t1" 5 1)
        "u1" "t1" 5 2).results "u1" (testResultDocId "t1" 5) = some 2 := by
  exact ⟨rfl, by simp [saveTestResult, readyEnv, emptyTestResultState]⟩

/-- C7 (amended): `saveTestResult` document ids are distinct whenever the
two calls observe different `Date.now()` millisecond values (for the same
test id); two calls landing in the same millisecond with the same test id
produce the same id and collide. -/
theorem C7_distinctKeysAcrossMillis (testId : String) (n m : Nat) (h : n ≠ m) :
    testResultDocId testId n ≠ testResultDocId testId m := by
  intro he
  simp only [testResultDocId] at he
  exact h (natRepr_injective (stringAppend_left_cancel he))

/-- C7 witness: the amended statement at two adjacent milliseconds. -/
theorem C7_distinctKeysAcrossMillis_witness :
    (5 : Nat) ≠ 6 ∧ testResultDocId "t1" 5 ≠ testResultDocId "t1" 6 :=
  ⟨by decide, C7_distinctKeysAcrossMillis "t1" 5 6 (by decide)⟩

/-- C8 (confirmed): when a required backend is unready at subscribe time,
each of `subscribeToUsers`, `subscribeToSettings` and
`subscribeToChapterData` returns the no-op handle `() => {}` — no listener
is attached, so `cancel()` detaches nothing — and the callback is never
invoked, whatever snapshots the stores would have produced. -/
theorem C8_unreadySubscribeIsNoop {α : Type} (env : Env) (fastList : List α)
    (fastVal durableVal : Option α) (csnaps : List (List α))
    (dsnaps fsnaps : List (Option α))
    (h : (env.dbReady && env.rtdbReady) = false) :
    subscribeToUsers env fastList csnaps
      = { calls := [], fallbackReads := 0, attached := false } ∧
    subscribeToSettings env fastVal dsnaps
      = { calls := [], fallbackReads := 0, attached := false } ∧
    subscribeToChapterData env durableVal fsnaps
      = { calls := [], fallbackReads := 0, attached := false } := by
  refine ⟨?_, ?_, ?_⟩ <;>
    simp [subscribeToUsers, subscribeToSettings, subscribeToChapterData, h]

/-- C8 witness: the statement instantiated with Firestore unready and
non-trivial snapshot streams. -/
theorem C8_unreadySubscribeIsNoop_witness :
    subscribeToUsers noDbEnv [7] [[1], []]
      = { calls := [], fallbackReads := 0, attached := false } ∧
    subscribeToSettings noDbEnv (some 3) [none, some 2]
      = { calls := [], fallbackReads := 0, attached := false } ∧
    subscribeToChapterData noDbEnv (some 4) [none]
      = { calls := [], fallbackReads := 0, attached := false } :=
  C8_unreadySubscribeIsNoop noDbEnv [7] (some 3) (some 4) [[1], []] [none, some 2] [none] rfl

/-- C9 (confirmed): `updateUserStatus` performs an RTDB-only shallow merge:
with RTDB ready and the merge not throwing, the DurableStore is left
completely unchanged (for every user), FastStore records of other users are
untouched, and the touched user's FastStore record gains `lastActiveTime`
while every other top-level field keeps its previous value. -/
theorem C9_touchActivityFastStoreOnly (env : Env) (nowIso : String) (s : UserState)
    (userId : Key) (time : Nat)
    (hrt : env.rtdbReady = true) (hup : env.fastUpdateFails userId = false) :
    (updateUserStatus env nowIso s userId time).1.durable = s.durable ∧
    (∀ k, k ≠ userId → (updateUserStatus env nowIso s userId time).1.fast k = s.fast k) ∧
    (∃ r, (updateUserStatus env nowIso s userId time).1.fast userId = some r ∧
       r "lastActiveTime" = some (Val.str nowIso) ∧
       ∀ f, f ≠ "lastActiveTime" →
         r f = (match s.fast userId with
                | some r0 => r0 f
                | none => none)) := by
  refine ⟨?_, fun k hk => ?_, ?_⟩
  · simp [updateUserStatus, hrt, hup]
  · simp [updateUserStatus, hrt, hup, rtdbMerge, hk]
  · refine ⟨mergeFields
        (match s.fast userId with
         | some r => r
         | none => fun _ => none)
        [("lastActiveTime", Val.str nowIso)], ?_, ?_, fun f hf => ?_⟩
    · simp [updateUserStatus, hrt, hup, rtdbMerge]
    · simp [mergeFields, List.lookup]
    · simp only [mergeFields, List.lookup]
      rw [beq_eq_false_iff_ne.mpr hf]
      cases s.fast userId <;> rfl

/-- C9 witness: the statement instantiated with RTDB ready, nothing failing
and an existing FastStore record for the touched user. -/
theorem C9_touchActivityFastStoreOnly_witness :
    (updateUserStatus readyEnv "2024-01-01T00:00:00.000Z" emptyUserState "u1" 0).1.durable
      = emptyUserState.durable ∧
    (∀ k, k ≠ "u1" →
       (updateUserStatus readyEnv "2024-01-01T00:00:00.000Z" emptyUserState "u1" 0).1.fast k
         = emptyUserState.fast k) ∧
    (∃ r, (updateUserStatus readyEnv "2024-01-01T00:00:00.000Z" emptyUserState "u1" 0).1.fast "u1"
         = some r ∧
       r "lastActiveTime" = some (Val.str "2024-01-01T00:00:00.000Z") ∧
       ∀ f, f ≠ "lastActiveTime" →
         r f = (match emptyUserState.fast "u1" with
                | some r0 => r0 f
                | none => none)) :=
  C9_touchActivityFastStoreOnly readyEnv "2024-01-01T00:00:00.000Z" emptyUserState "u1" 0
    rfl rfl

/-- C10 (confirmed): `updateUserStatus` never reads its `time` argument —
two calls differing only in `time` are indistinguishable — and the value
merged under `lastActiveTime` is the current wall clock serialized to an
ISO-8601 string (modelled by `nowIso`, the result of
`new Date().toISOString()`), not the passed time. -/
theorem C10_timeArgumentIgnored (env : Env) (nowIso : String) (s : UserState)
    (userId : Key) (t1 t2 : Nat) :
    updateUserStatus env nowIso s userId t1 = updateUserStatus env nowIso s userId t2 ∧
    (env.rtdbReady = true → env.fastUpdateFails userId = false →
       ∃ r, (updateUserStatus env nowIso s userId t1).1.fast userId = some r ∧
         r "lastActiveTime" = some (Val.str nowIso)) := by
  refine ⟨rfl, fun hrt hup => ⟨mergeFields
      (match s.fast userId with
       | some r => r
       | none => fun _ => none)
      [("lastActiveTime", Val.str nowIso)], ?_, ?_⟩⟩
  · simp [updateUserStatus, hrt, hup, rtdbMerge]
  · simp [mergeFields, List.lookup]

/-- C10 witness: the statement at two different `time` arguments under the
same wall clock. -/
theorem C10_timeArgumentIgnored_witness :
    updateUserStatus readyEnv "2024-01-01T00:00:00.000Z" emptyUserState "u1" 111
      = updateUserStatus readyEnv "2024-01-01T00:00:00.000Z" emptyUserState "u1" 222 ∧
    (readyEnv.rtdbReady = true → readyEnv.fastUpdateFails "u1" = false →
       ∃ r, (updateUserStatus readyEnv "2024-01-01T00:00:00.000Z" emptyUserState "u1" 111).1.fast
           "u1" = some r ∧
         r "lastActiveTime" = some (Val.str "2024-01-01T00:00:00.000Z")) :=
  C10_timeArgumentIgnored readyEnv "2024-01-01T00:00:00.000Z" emptyUserState "u1" 111 222

end Firebase
